import Mathlib

/-!
Verification of the geospatial tract-resolution and vulnerability-aggregation
core of the ppe-priority repository, against its natural-language
specification.  The definitions below are shallow embeddings of the Python
sources:

  * code/gis_manips.py        — geocoding, radius-buffer construction, overlay
  * code/priority_algorithm.py — SVI percentile aggregation (lines 259–266)
  * tracts_in_radius.py        — radius CLI entry point
  * match_address_to_county.py — county CLI entry point

Machine floats are modelled over ℚ; Python exceptions are modelled with
Except; I/O is modelled as explicit effect traces.
-/

/-! ## Radius-buffer construction (gis_manips.py, lines 114–125)

The source builds the buffer as
  p = shapely.geometry.Point(coords)
  n_points = 20
  d = mile_radius * 1609  # meters
  angles = np.linspace(0, 360, n_points)
  radius_ball_array = geog.propagate(p, angles, d)
  ... shapely.geometry.Polygon(radius_ball_array)
so the intersection geometry is a polygon whose vertices are the geodesic
destinations of the sampled bearings.  The geodesic step geog.propagate is a
parameter of the embedding (its spherical trigonometry is external library
code); the structure of the construction is what the claims are about. -/

/-- Geometry of a radius buffer: either an exact circle (the shape the spec
demands) or a polygon through a finite list of vertices (what the code
builds). -/
inductive BufferGeom where
  | exactCircle (center : ℚ × ℚ) (radiusMeters : ℚ)
  | polygonOfPoints (vertices : List (ℚ × ℚ))
deriving DecidableEq

/-- Whether a buffer geometry is an exact circle. -/
def isExactCircle : BufferGeom → Bool
  | BufferGeom.exactCircle _ _ => true
  | BufferGeom.polygonOfPoints _ => false

/-- Number of polygon vertices of a buffer geometry. -/
def vertexCount : BufferGeom → Nat
  | BufferGeom.exactCircle _ _ => 0
  | BufferGeom.polygonOfPoints vs => vs.length

/-- numpy.linspace a b n with the default endpoint=True: n evenly spaced
samples from a to b, both endpoints included. -/
def linspace (a b : ℚ) (n : Nat) : List ℚ :=
  (List.range n).map (fun i => a + (b - a) * i / (n - 1))

/-- gis_manips.py line 116: n_points = 20. -/
def n_points : Nat := 20

/-- gis_manips.py line 118: angles = np.linspace(0, 360, n_points). -/
def bufferAngles : List ℚ := linspace 0 360 n_points

/-- gis_manips.py line 117: d = mile_radius * 1609  (comment says meters). -/
def d_meters (mile_radius : ℚ) : ℚ := mile_radius * 1609

/-- gis_manips.py lines 115–125: the buffer polygon, one vertex per sampled
bearing, each vertex the geodesic destination of geog.propagate at distance
d_meters.  The propagate step (point, bearing, distance ↦ point) is abstract. -/
def radiusBall (propagate : ℚ × ℚ → ℚ → ℚ → ℚ × ℚ) (p : ℚ × ℚ)
    (mile_radius : ℚ) : BufferGeom :=
  BufferGeom.polygonOfPoints
    (bufferAngles.map (fun ang => propagate p ang (d_meters mile_radius)))

/-! ## Unit conversion

tracts_in_radius.py imports miles_to_meters from code.priority_algorithm,
but no file in the repository defines it; only its caller exists. -/

/-- Modelled from the spec: miles_to_meters is imported by
tracts_in_radius.py from code.priority_algorithm but defined nowhere in the
repository; the spec fixes the conversion factor as 1 mile = 1609.34
meters. -/
def miles_to_meters (m : ℚ) : ℚ := m * (160934 / 100)

/-! ## Radius CLI (tracts_in_radius.py)

Line 18 declares the --radius argument; lines 29–33 call
  get_radius_tracts(census_tract_geom_fp, facility_address,
                    radius=miles_to_meters(5))
so the radius passed to the query is a constant, independent of the parsed
argument value. -/

/-- tracts_in_radius.py lines 29–33: the radius keyword passed to
get_radius_tracts, as a function of the parsed --radius value.  The parsed
value is never read; the call site hard-codes miles_to_meters(5). -/
def radiusArgumentToQuery (_argsRadius : ℚ) : ℚ :=
  miles_to_meters 5

/-! ## SVI percentile aggregation (priority_algorithm.py, lines 259–266)

The source computes, over numpy arrays of SVI values,
  regional_top_quartile_count = np.sum(local_svis >= stats.scoreatpercentile(regional_svis, 75))
  county_top_quartile_count   = np.sum(local_svis >= stats.scoreatpercentile(county_svis, 75))
scipy.stats.scoreatpercentile sorts the values and interpolates linearly:
with n sorted values it forms idx = per/100 * (n-1); an integral idx selects
sorted[idx] (an empty slice reduces to 0.0); a fractional idx takes the
two-element slice sorted[i:i+2] (i = int(idx)) and returns
sorted[i]*(i+1-idx) + sorted[i+1]*(idx-i).  On an empty input with
fractional idx the two-element weight vector cannot broadcast against the
empty slice and numpy raises a ValueError. -/

/-- Errors arising in the aggregation.  valueError and broadcastError model
the exceptions scipy/numpy actually raise; emptyReferencePopulation is the
domain error named by the spec's error taxonomy (§7), which no code in the
repository defines or raises. -/
inductive SciError where
  | valueError
  | broadcastError
  | emptyReferencePopulation
deriving DecidableEq

/-- Python's int() on a rational: truncation toward zero. -/
def pyInt (q : ℚ) : Int :=
  if q < 0 then -(Int.floor (-q)) else Int.floor q

/-- scipy _compute_qth_percentile: idx = per/100 * (n - 1), where n is the
length of the sorted array (numpy arrays carry their length; an empty array
gives n - 1 = -1). -/
def percentileIdx (n : Nat) (per : ℚ) : ℚ :=
  per / 100 * ((n : ℚ) - 1)

/-- scipy.stats._compute_qth_percentile on an already sorted list: rejects
per outside [0, 100]; an integral idx selects sorted[idx] (np.add.reduce of
an empty slice is 0.0); a fractional idx interpolates between sorted[i] and
sorted[i+1] with weights (i+1-idx, idx-i) — a slice shorter than two
elements broadcasts only when it has one element (weights sum to 1), and an
empty slice raises a broadcast ValueError. -/
def computeQthPercentile (sorted_ : List ℚ) (per : ℚ) : Except SciError ℚ :=
  if per > 100 ∨ per < 0 then Except.error SciError.valueError
  else if (pyInt (percentileIdx sorted_.length per) : ℚ)
      = percentileIdx sorted_.length per then
    match sorted_.get? (pyInt (percentileIdx sorted_.length per)).toNat with
    | some v => Except.ok v
    | none => Except.ok 0
  else
    match sorted_.get? (pyInt (percentileIdx sorted_.length per)).toNat,
        sorted_.get? ((pyInt (percentileIdx sorted_.length per)).toNat + 1) with
    | some a, some b =>
        Except.ok (a * (((pyInt (percentileIdx sorted_.length per) : ℚ) + 1)
              - percentileIdx sorted_.length per)
          + b * (percentileIdx sorted_.length per
              - (pyInt (percentileIdx sorted_.length per) : ℚ)))
    | some a, none => Except.ok a
    | none, _ => Except.error SciError.broadcastError

/-- scipy.stats.scoreatpercentile: sort (np.sort, ascending), then compute
the qth percentile with the default interpolation_method="fraction". -/
def scoreatpercentile (a : List ℚ) (per : ℚ) : Except SciError ℚ :=
  computeQthPercentile (List.insertionSort (fun x y => x ≤ y) a) per

/-- priority_algorithm.py line 265:
np.sum(local_svis >= stats.scoreatpercentile(regional_svis, 75)) — the
number of local SVI values at or above the regional 75th percentile. -/
def regional_top_quartile_count (local_svis regional_svis : List ℚ) :
    Except SciError Nat :=
  (scoreatpercentile regional_svis 75).map
    (fun t => (local_svis.filter (fun v => t ≤ v)).length)

/-- priority_algorithm.py line 266:
np.sum(local_svis >= stats.scoreatpercentile(county_svis, 75)) — the number
of local SVI values at or above the county 75th percentile. -/
def county_top_quartile_count (local_svis county_svis : List ℚ) :
    Except SciError Nat :=
  (scoreatpercentile county_svis 75).map
    (fun t => (local_svis.filter (fun v => t ≤ v)).length)

/-- The concrete scenario of the spec (§8): reference population SVI values
A ↦ 10, B ↦ 20, C ↦ 30, D ↦ 40. -/
def referenceSvi : List (String × ℚ) := [("A", 10), ("B", 20), ("C", 30), ("D", 40)]

/-- The scenario's local tract set. -/
def localFips : List String := ["A", "C"]

/-- SVI values of the local tracts, looked up in the reference table. -/
def localSvis : List ℚ :=
  localFips.filterMap (fun f => referenceSvi.lookup f)

/-- SVI values of the whole reference population. -/
def countySvis : List ℚ := referenceSvi.map (fun r => r.2)

/-! ## CRS handling (gis_manips.py, lines 88–127)

The spec requires the resolved point to be reprojected from EPSG:4326 into
the equal-area planar CRS EPSG:2163 exactly once before any geometric
predicate runs.  The source never calls any reprojection (no to_crs, no
pyproj transform appears anywhere): the Nominatim coordinates (line 94) are
EPSG:4326 longitude/latitude, the buffer polygon (lines 115–125) is built
from those geographic coordinates, and the overlay (line 127) intersects it
with the state geojson dataframe, which is likewise in EPSG:4326.  The
sequence of geometry-bearing operations is recorded as a trace. -/

/-- Coordinate reference systems relevant to the spec. -/
inductive CRS where
  | epsg4326
  | epsg2163
deriving DecidableEq

/-- One geometry-bearing operation of a query, tagged with the CRS of the
geometry it runs on. -/
inductive GeoStep where
  | geocodeStep (outCrs : CRS)
  | reprojectStep (src tgt : CRS)
  | bufferStep (pointCrs : CRS)
  | overlayStep (leftCrs rightCrs : CRS)
deriving DecidableEq

/-- The trace of get_sourrounding_census_tracts: geocode at line 90 yields
EPSG:4326 coordinates, the buffer is built from them at lines 115–125, and
the overlay at line 127 intersects it with the EPSG:4326 state dataframe.
No reprojection step occurs anywhere in the function. -/
def querySteps : List GeoStep :=
  [GeoStep.geocodeStep CRS.epsg4326,
   GeoStep.bufferStep CRS.epsg4326,
   GeoStep.overlayStep CRS.epsg4326 CRS.epsg4326]

/-- Whether a step is a reprojection. -/
def isReprojectStep : GeoStep → Bool
  | GeoStep.reprojectStep _ _ => true
  | _ => false

/-- Number of reprojections in a trace. -/
def reprojectCount (steps : List GeoStep) : Nat :=
  (steps.filter isReprojectStep).length

/-- The CRSs of the geometry an operation touches. -/
def stepCrss : GeoStep → List CRS
  | GeoStep.geocodeStep c => [c]
  | GeoStep.reprojectStep s t => [s, t]
  | GeoStep.bufferStep c => [c]
  | GeoStep.overlayStep l r => [l, r]

/-- Whether a binary geometric predicate mixes two different CRSs. -/
def crsMismatch : GeoStep → Bool
  | GeoStep.overlayStep l r => !(l == r)
  | _ => false

/-! ## Geocoding and effects (gis_manips.py, lines 88–112)

Lines 88–99:
  locator = Nominatim(user_agent="ppe", country_bias="US")
  location = locator.geocode(address)
  try:
      coords = [location.longitude, location.latitude]
  except AttributeError:
      print(" No valid coordinates found for this address.")
  state = re.search(..., location.address).group(1)
The geocode call is a network request against the Nominatim service using
the full address string; there is no postal-code gazetteer in the
repository.  When no location is found, location is None: the except branch
only prints, execution continues, and line 99 dereferences location.address,
raising an uncaught AttributeError.  Lines 107–112 then read the state
boundary dataset, from a GitHub URL when use_url is True (the default) or
from a local file otherwise. -/

/-- Observable effects of a query. -/
inductive Effect where
  | netGeocode
  | printWarn
  | netHttpGet
  | localFileRead
deriving DecidableEq

/-- A Nominatim response: coordinates (EPSG:4326) and the display address
string the code later parses the state from. -/
structure GeoLocation where
  longitude : ℚ
  latitude : ℚ
  address : String

/-- How a resolution can fail: the uncaught Python AttributeError of line
99, or the spec's UnknownPostalCode (§7), which no code raises. -/
inductive ResolveError where
  | attributeError
  | unknownPostalCode
deriving DecidableEq

/-- Lines 88–99: geocode the full address (a network effect); on success the
coordinates [longitude, latitude] are read; on failure the warning is
printed and the subsequent location.address dereference raises
AttributeError. -/
def resolve_location (geocode : String → Option GeoLocation)
    (address : String) : List Effect × Except ResolveError (ℚ × ℚ) :=
  match geocode address with
  | none =>
      ([Effect.netGeocode, Effect.printWarn],
       Except.error ResolveError.attributeError)
  | some loc => ([Effect.netGeocode], Except.ok (loc.longitude, loc.latitude))

/-- Whether a resolution outcome is the spec's UnknownPostalCode failure. -/
def resolveErrIsUnknown : Except ResolveError (ℚ × ℚ) → Bool
  | Except.error ResolveError.unknownPostalCode => true
  | _ => false

/-- Whether a resolution outcome is the uncaught AttributeError. -/
def resultIsAttrErr : Except ResolveError (ℚ × ℚ) → Bool
  | Except.error ResolveError.attributeError => true
  | _ => false

/-- Whether an effect is network I/O. -/
def isNetwork : Effect → Bool
  | Effect.netGeocode => true
  | Effect.netHttpGet => true
  | _ => false

/-- The network effects of a trace. -/
def networkEffects (l : List Effect) : List Effect := l.filter isNetwork

/-- The full effect trace of get_sourrounding_census_tracts: the resolution
effects, then — if resolution survived — the boundary-dataset read, which is
an HTTP fetch of the state geojson from GitHub when use_url is True (line
109) and a local file read otherwise (line 112). -/
def get_sourrounding_census_tracts_effects
    (geocode : String → Option GeoLocation) (address : String)
    (use_url : Bool) : List Effect :=
  (resolve_location geocode address).1 ++
    match (resolve_location geocode address).2 with
    | Except.error _ => []
    | Except.ok _ =>
        if use_url then [Effect.netHttpGet] else [Effect.localFileRead]

/-- A concrete Nominatim-style response for the demo address of
gis_manips.py. -/
def mitLocation : GeoLocation :=
  { longitude := -(711046 / 10000)
    latitude := 423626 / 10000
    address := "77, Massachusetts Avenue, Cambridge, Massachusetts, United States" }

/-! ## CLI import behaviour (match_address_to_county.py, tracts_in_radius.py)

Both entry points begin with a from-import of code.priority_algorithm
(get_county, resp. get_radius_tracts and miles_to_meters) followed by an
aliasing module import of code.config.  There is no config.py under code/, and code/priority_algorithm.py contains
only the two def statements get_radius_svis (line 219) and get_regional_svis
(line 241) — the first has its docstring at column 0 instead of an indented
body, the second lacks the trailing colon, so the module does not parse —
besides top-level statements over undefined names (dat, row_idx,
need_score, URGENCY_WEIGHT, facility_type, svi_data, RADIUS, COUNTIES_LIST,
get_county, get_county_svis, SVI_COMPARISON, …).  The model records which
modules are importable, whether they parse, and which names their def
statements would bind, and executes each script until its first failing
step. -/

/-- One top-level step of a CLI script. -/
inductive PyStep where
  | importFrom (module : String) (names : List String)
  | importModule (module : String)
  | buildPath
  | parseArgs
  | callQuery
  | printResult
deriving DecidableEq

/-- Modules importable in the repository: the repo's own files (there is no
code/config.py) and the standard-library modules the scripts use. -/
def pythonPathModules : List String :=
  ["match_address_to_county", "tracts_in_radius", "code.gis_manips",
   "code.priority_algorithm", "code.staticfiles.census_track_matching",
   "argparse", "os"]

/-- Whether a module's source parses: code/priority_algorithm.py does not
(unindented docstring at line 220, missing colon at line 241). -/
def moduleParses (m : String) : Bool :=
  !(m == "code.priority_algorithm")

/-- Names bound by def statements in a module's source, for the modules the
scripts import from: code/priority_algorithm.py contains exactly the two
stub def statements. -/
def moduleDefNames (m : String) : List String :=
  if m == "code.priority_algorithm" then ["get_radius_svis", "get_regional_svis"]
  else []

/-- Whether a step succeeds: an import requires the module to be on the
path and to parse, and a from-import additionally requires each imported
name to be bound by the module. -/
def stepOk : PyStep → Bool
  | PyStep.importFrom m ns =>
      pythonPathModules.contains m && moduleParses m
        && ns.all (fun n => (moduleDefNames m).contains n)
  | PyStep.importModule m => pythonPathModules.contains m && moduleParses m
  | _ => true

/-- Whether execution of the script reaches the given step: every step
before it must succeed (a failing step raises and aborts the script). -/
def reaches : List PyStep → PyStep → Bool
  | [], _ => false
  | s :: rest, t => if s == t then true else stepOk s && reaches rest t

/-- match_address_to_county.py, top to bottom: the two project imports
(lines 1–2), the stdlib imports (lines 3–4), the path construction (line 8),
then the main block (argument parsing, query, print). -/
def matchAddressSteps : List PyStep :=
  [PyStep.importFrom "code.priority_algorithm" ["get_county"],
   PyStep.importModule "code.config",
   PyStep.importModule "argparse",
   PyStep.importModule "os",
   PyStep.buildPath,
   PyStep.parseArgs,
   PyStep.callQuery,
   PyStep.printResult]

/-- tracts_in_radius.py, top to bottom, with its two names imported from
code.priority_algorithm (line 1). -/
def tractsInRadiusSteps : List PyStep :=
  [PyStep.importFrom "code.priority_algorithm"
      ["get_radius_tracts", "miles_to_meters"],
   PyStep.importModule "code.config",
   PyStep.importModule "argparse",
   PyStep.importModule "os",
   PyStep.buildPath,
   PyStep.parseArgs,
   PyStep.callQuery,
   PyStep.printResult]

/-! ## Theorems -/

/-- Helper: the sampled bearings are the twenty values 360*i/19 for
i = 0,…,19; in particular 0 and 360 both occur, so only nineteen directions
are distinct among the twenty samples. -/
theorem bufferAngles_eval :
    bufferAngles =
      [0, 360/19, 720/19, 1080/19, 1440/19, 1800/19, 2160/19, 2520/19,
       2880/19, 3240/19, 3600/19, 3960/19, 4320/19, 4680/19, 5040/19,
       5400/19, 5760/19, 6120/19, 6480/19, 360] := by
  rw [bufferAngles, linspace, n_points,
    show List.range 20 = [0, 1, 2, 3, 4, 5, 6, 7, 8, 9, 10, 11, 12, 13, 14,
      15, 16, 17, 18, 19] from rfl]
  norm_num

/-- Claim C1, counterexample: the buffer the code constructs (with any
concrete geodesic step, here the one returning the start point) is not an
exact circle, refuting the claim that the buffer used for intersection is an
exact circle in the planar CRS. -/
theorem C1_counterexample :
    isExactCircle (radiusBall (fun q _ _ => q) (0, 0) 10) = false := rfl

/-- Claim C1 as amended: for every geodesic step, center point and mile
radius, the buffer used for intersection is not an exact circle but a polygon
through exactly n_points = 20 vertices, one per bearing sampled by
np.linspace(0, 360, 20) — whose first and last bearings are 0 and 360, i.e.
the same direction — at geodesic distance mile_radius * 1609 meters. -/
theorem C1_amended (propagate : ℚ × ℚ → ℚ → ℚ → ℚ × ℚ) (p : ℚ × ℚ)
    (mile_radius : ℚ) :
    isExactCircle (radiusBall propagate p mile_radius) = false ∧
    vertexCount (radiusBall propagate p mile_radius) = n_points ∧
    bufferAngles.head? = some 0 ∧
    bufferAngles.getLast? = some 360 := by
  refine ⟨rfl, ?_, by rw [bufferAngles_eval]; rfl, by rw [bufferAngles_eval]; rfl⟩
  rw [radiusBall, vertexCount, List.length_map, bufferAngles_eval, n_points]
  rfl

/-- Claim C3, the code at the failing input: with --radius set to 10, the
radius handed to get_radius_tracts is still miles_to_meters 5 = 8046.7
meters, not miles_to_meters 10 = 16093.4 meters, because the call site
hard-codes the constant 5. -/
theorem C3_code_bug :
    radiusArgumentToQuery 10 = miles_to_meters 5 ∧
    radiusArgumentToQuery 10 = 80467 / 10 ∧
    miles_to_meters 10 = 160934 / 10 := by
  refine ⟨rfl, by norm_num [radiusArgumentToQuery, miles_to_meters],
    by norm_num [miles_to_meters]⟩

/-- Claim C4, counterexample: converting 1 mile with the conversion the code
actually performs (gis_manips.py line 117) yields 1609 meters, which is
strictly below the 1609.34 the claim asserts for that input — so the claim
that every mile-to-meter conversion multiplies by 1609.34 is false. -/
theorem C4_counterexample :
    d_meters 1 = 1609 ∧ (1609 : ℚ) < 160934 / 100 := by
  constructor
  · rw [d_meters]; norm_num
  · norm_num

/-- Claim C4 as amended: the conversion performed by
get_sourrounding_census_tracts multiplies by 1609 meters per mile, falling
short of the spec's 1609.34 factor by 0.34 meters for each mile. -/
theorem C4_amended (m : ℚ) :
    d_meters m = m * 1609 ∧ miles_to_meters m - d_meters m = m * (34 / 100) := by
  constructor
  · rfl
  · unfold miles_to_meters d_meters
    ring

/-- Helper: the index scipy forms for the 75th percentile of four values is
9/4; its Python int() truncation is 2, and the index is not integral. -/
theorem percentileIdx_four : percentileIdx 4 75 = 9 / 4 := by
  rw [percentileIdx]; norm_num

/-- Helper: pyInt (9/4) = 2. -/
theorem pyInt_nine_fourths : pyInt (9 / 4) = 2 := by
  rw [pyInt, if_neg (by norm_num)]
  rw [Int.floor_eq_iff]
  norm_num

/-- Helper: pyInt (-3/4) = 0, the truncation toward zero that scipy performs
on the negative index arising from an empty array. -/
theorem pyInt_neg_three_fourths : pyInt (-(3 / 4)) = 0 := by
  rw [pyInt, if_pos (by norm_num)]
  norm_num

/-- Helper: evaluating scoreatpercentile on the scenario's reference values
[10, 20, 30, 40] at the 75th percentile: sorted values interpolate at
idx = 9/4 to 30 * (3 - 9/4) + 40 * (9/4 - 2) = 65/2 = 32.5. -/
theorem scoreatpercentile_ref :
    scoreatpercentile [10, 20, 30, 40] 75 = Except.ok (65 / 2) := by
  rw [scoreatpercentile,
    show List.insertionSort (fun x y : ℚ => x ≤ y) [10, 20, 30, 40]
      = [10, 20, 30, 40] from by decide,
    computeQthPercentile]
  rw [if_neg (by norm_num)]
  rw [show ([10, 20, 30, 40] : List ℚ).length = 4 from rfl, percentileIdx_four,
    pyInt_nine_fourths]
  rw [if_neg (by norm_num)]
  rw [show ([10, 20, 30, 40] : List ℚ).get? (Int.toNat 2) = some 30 from rfl,
    show ([10, 20, 30, 40] : List ℚ).get? (Int.toNat 2 + 1) = some 40 from rfl]
  norm_num

/-- Helper: evaluating scoreatpercentile on the empty list at the 75th
percentile: idx = -3/4 is fractional, the two-element weight vector cannot
broadcast against the empty slice, and numpy raises. -/
theorem scoreatpercentile_empty :
    scoreatpercentile [] 75 = Except.error SciError.broadcastError := by
  rw [scoreatpercentile,
    show List.insertionSort (fun x y : ℚ => x ≤ y) [] = [] from rfl,
    computeQthPercentile]
  rw [if_neg (by norm_num)]
  rw [show (([] : List ℚ)).length = 0 from rfl,
    show percentileIdx 0 75 = -(3 / 4) from by rw [percentileIdx]; norm_num,
    pyInt_neg_three_fourths]
  rw [if_neg (by norm_num)]
  rfl

/-- Claim C5, counterexample: on the scenario's reference values the code's
linear-interpolation 75th percentile evaluates to 65/2 = 32.5, strictly
below the 37.5 the claim asserts. -/
theorem C5_counterexample :
    scoreatpercentile countySvis 75 = Except.ok (65 / 2) ∧
    (65 / 2 : ℚ) < 75 / 2 := by
  constructor
  · rw [show countySvis = [10, 20, 30, 40] from rfl, scoreatpercentile_ref]
  · norm_num

/-- Claim C5 as amended: with reference SVI population A ↦ 10, B ↦ 20,
C ↦ 30, D ↦ 40, local tracts A and C, and threshold 75, the aggregation
computes the linear-interpolation 75th percentile of [10, 20, 30, 40] as
32.5 (not 37.5) and returns a high-vulnerability count of 0. -/
theorem C5_amended :
    localSvis = [10, 30] ∧
    scoreatpercentile countySvis 75 = Except.ok (65 / 2) ∧
    county_top_quartile_count localSvis countySvis = Except.ok 0 := by
  refine ⟨by decide, ?_, ?_⟩
  · rw [show countySvis = [10, 20, 30, 40] from rfl, scoreatpercentile_ref]
  · rw [county_top_quartile_count,
      show countySvis = [10, 20, 30, 40] from rfl, scoreatpercentile_ref,
      show localSvis = [10, 30] from by decide]
    show Except.ok (([10, 30] : List ℚ).filter (fun v => 65 / 2 ≤ v)).length
      = Except.ok 0
    norm_num [List.filter]

/-- Claim C7, counterexample: with an empty reference population the
aggregation at priority_algorithm.py line 265 fails with the numpy broadcast
error inside scoreatpercentile, not with the spec's domain error
EmptyReferencePopulation: the two error values are distinct constructors. -/
theorem C7_counterexample :
    regional_top_quartile_count [10, 30] [] = Except.error SciError.broadcastError ∧
    (SciError.broadcastError == SciError.emptyReferencePopulation) = false := by
  constructor
  · rw [regional_top_quartile_count, scoreatpercentile_empty]; rfl
  · rfl

/-- Claim C7 as amended: for every local SVI value list, aggregating against
an empty reference population fails — no count is returned — but with the
generic numpy broadcast error raised inside scoreatpercentile; no
EmptyReferencePopulation error exists anywhere in the code. -/
theorem C7_amended (local_svis : List ℚ) :
    regional_top_quartile_count local_svis [] =
      Except.error SciError.broadcastError := by
  rw [regional_top_quartile_count, scoreatpercentile_empty]; rfl

/-- Claim C2, counterexample: the number of reprojections performed by the
query pipeline is not one — the point is used in every geometric operation
exactly as the geocoder returned it. -/
theorem C2_counterexample : (reprojectCount querySteps == 1) = false := by decide

/-- Claim C2 as amended: the resolved point is never reprojected — the
pipeline contains zero reprojection steps — and every geometric operation,
including the buffer construction and the overlay intersection, is evaluated
with all geometry in EPSG:4326; the two sides of the overlay agree on their
CRS, but nothing is ever in the planar equal-area CRS EPSG:2163. -/
theorem C2_amended :
    reprojectCount querySteps = 0 ∧
    (querySteps.map stepCrss).flatten.all (fun c => c == CRS.epsg4326) = true ∧
    querySteps.all (fun s => !(crsMismatch s)) = true := by decide

/-- Claim C8, counterexample: when the geocoder finds nothing for the given
input, resolution fails with the uncaught AttributeError of line 99 — not
with UnknownPostalCode. -/
theorem C8_counterexample :
    (resolve_location (fun _ => none) "02139").2
      = Except.error ResolveError.attributeError ∧
    resolveErrIsUnknown ((resolve_location (fun _ => none) "02139").2) = false :=
  ⟨rfl, rfl⟩

/-- Claim C8 as amended: resolution consumes the full address through a
Nominatim network geocode — there is no postal-code gazetteer — and for
every geocoder and address it never fails with UnknownPostalCode: it fails
(exactly when the geocoder returns nothing) with the uncaught AttributeError
of line 99, after printing a warning; when a location is found it returns
that location's (longitude, latitude), which are EPSG:4326 geographic
coordinates. -/
theorem C8_amended (geocode : String → Option GeoLocation) (address : String)
    (loc : GeoLocation) :
    resolveErrIsUnknown ((resolve_location geocode address).2) = false ∧
    Effect.netGeocode ∈ (resolve_location geocode address).1 ∧
    resultIsAttrErr ((resolve_location geocode address).2)
      = (geocode address).isNone ∧
    resolve_location (fun _ => none) address
      = ([Effect.netGeocode, Effect.printWarn],
         Except.error ResolveError.attributeError) ∧
    resolve_location (fun _ => some loc) address
      = ([Effect.netGeocode], Except.ok (loc.longitude, loc.latitude)) := by
  refine ⟨?_, ?_, ?_, rfl, rfl⟩ <;>
    cases h : geocode address <;>
      simp [resolve_location, h, resolveErrIsUnknown, resultIsAttrErr]

/-- Claim C9, counterexample: a successful query over the demo address with
the default use_url=True performs network I/O — its network effect trace is
nonempty (the Nominatim geocode and the GitHub geojson fetch). -/
theorem C9_counterexample :
    (networkEffects (get_sourrounding_census_tracts_effects
        (fun _ => some mitLocation) "77 Massachusetts Avenue, Cambridge"
        true)).isEmpty = false := rfl

/-- Claim C9 as amended: every query performs network I/O — the Nominatim
geocode request always happens, and when the geocoder succeeds and use_url
is True (its default) the state geojson is additionally fetched over HTTPS;
only the geocode is network I/O otherwise.  Results therefore depend on live
remote responses, not only on the input and pre-loaded static data; the
resolution itself is deterministic only relative to a fixed geocoder
response. -/
theorem C9_amended (geocode : String → Option GeoLocation) (address : String)
    (use_url : Bool) :
    networkEffects
        (get_sourrounding_census_tracts_effects geocode address use_url)
      = if (geocode address).isSome && use_url
        then [Effect.netGeocode, Effect.netHttpGet]
        else [Effect.netGeocode] := by
  cases h : geocode address <;> cases use_url <;>
    simp [get_sourrounding_census_tracts_effects, resolve_location, h,
      networkEffects, isNetwork]

/-- Claim C10: neither get_county, get_radius_tracts nor miles_to_meters is
bound by code/priority_algorithm.py (whose only def statements are the two
body-less stubs, and which does not even parse), the module code.config does
not exist, and consequently each CLI script fails at its very first import,
never reaching argument parsing. -/
theorem C10_theorem :
    (moduleDefNames "code.priority_algorithm").contains "get_county" = false ∧
    (moduleDefNames "code.priority_algorithm").contains "get_radius_tracts" = false ∧
    (moduleDefNames "code.priority_algorithm").contains "miles_to_meters" = false ∧
    moduleParses "code.priority_algorithm" = false ∧
    pythonPathModules.contains "code.config" = false ∧
    stepOk (PyStep.importFrom "code.priority_algorithm" ["get_county"]) = false ∧
    stepOk (PyStep.importFrom "code.priority_algorithm"
      ["get_radius_tracts", "miles_to_meters"]) = false ∧
    reaches matchAddressSteps PyStep.parseArgs = false ∧
    reaches tractsInRadiusSteps PyStep.parseArgs = false := by decide
